import Mathlib

/-!
Shallow embedding of the Planner-AI chat backend (src/Backend/chatbot.js).

The file chatbot.js contains two variants of the same Express router.  The
first variant (the one whose line numbers the claims cite for the delete,
undo, add_bucket, add_task, show_* and message-guard logic) is embedded as
`handleChat` below; the add_bucket case of the second variant (lines
463-480) is embedded separately as `addBucketV2`.

Modelling conventions:
* MongoDB documents become structures with a `Nat` id; a collection is a
  list in insertion order (Mongo natural order), `findOne` is `List.find?`,
  `deleteOne {_id}` is `List.eraseP` on the id, `create` appends.
* `Store.nextId` is a monotone counter that doubles as the id generator and
  the `createdAt` timestamp clock, so creation order agrees with
  `sort({createdAt : -1})`.
* A JavaScript `new RegExp(q, "i")` test against a field is a
  case-insensitive substring check (`ciSub`); the anchored
  `new RegExp("^" ++ q ++ "$", "i")` is case-insensitive equality (`ciEq`).
* JavaScript falsiness of an optional string field (`!data.title`) is
  `getPresent = none`: the field is absent or equal to `""`.
* The external classifier (`callLLM` posting to openrouter) is an oracle
  parameter `LLMOutcome`: either a parsed JSON result, an HTTP-OK response
  whose content fails `JSON.parse` (the `catch` inside `callLLM` returns a
  canned result), or a transport failure / timeout (axios throws, which the
  route-level `catch` turns into a generic backend-error reply).
* `ctx.lastDeleted = { model, data: doc.toObject() }` keeps the full
  document including its `_id`; `model.create(data)` with an explicit `_id`
  present in `data` reuses that id (Mongoose behaviour), so `insertSnap`
  re-inserts the captured document verbatim.
-/

structure BoardDoc where
  id : Nat
  title : String
  createdAt : Nat
deriving Repr, DecidableEq

structure BucketDoc where
  id : Nat
  title : String
  boardId : Nat
deriving Repr, DecidableEq

structure TaskDoc where
  id : Nat
  title : String
  bucketId : Nat
deriving Repr, DecidableEq

structure UserDoc where
  id : Nat
  name : String
  initials : String
  avatarColor : String
deriving Repr, DecidableEq

structure Store where
  boards : List BoardDoc
  buckets : List BucketDoc
  tasks : List TaskDoc
  users : List UserDoc
  nextId : Nat
deriving Repr, DecidableEq

/-- Snapshot payload stored in `ctx.lastDeleted`: which model together with
the full captured document (`doc.toObject()`). -/
inductive SnapData where
  | board (d : BoardDoc)
  | bucket (d : BucketDoc)
  | task (d : TaskDoc)
  | user (d : UserDoc)
deriving Repr, DecidableEq

/-- Cached list for `ctx.lastResult` (set by the show_* cases). -/
inductive ShowResult where
  | boards (l : List BoardDoc)
  | buckets (l : List BucketDoc)
  | tasks (l : List TaskDoc)
deriving Repr, DecidableEq

/-- Per-session context, one per session key in the global `memory` map. -/
structure Ctx where
  activeBoardId : Option Nat
  lastDeleted : Option SnapData
  lastResult : Option ShowResult
deriving Repr, DecidableEq

def Ctx.empty : Ctx := ⟨none, none, none⟩

/-- Slots that the classifier may extract (`ai.data`). -/
structure LLMData where
  title : Option String
  bucket : Option String
  name : Option String
  type : Option String
  project : Option String
deriving Repr, DecidableEq

def LLMData.empty : LLMData := ⟨none, none, none, none, none⟩

/-- Parsed classifier result (`ai`). -/
structure LLMResult where
  action : String
  data : LLMData
  reply : String
deriving Repr, DecidableEq

/-- Oracle for the external classifier call. -/
inductive LLMOutcome where
  | ok (r : LLMResult)
  | badJSON
  | failure
deriving Repr, DecidableEq

/-- `callLLM`: a transport failure throws (`Except.error`); an HTTP-OK
response whose content is not parseable JSON is caught inside `callLLM`
and replaced by the canned none-result. -/
def callLLM : LLMOutcome → Except Unit LLMResult
  | .ok r => .ok r
  | .badJSON =>
      .ok ⟨"none", LLMData.empty, "I could not understand that. Could you rephrase?"⟩
  | .failure => .error ()

/-- JavaScript truthiness of an optional string field. -/
def getPresent : Option String → Option String
  | none => none
  | some s => if s == "" then none else some s

def present (o : Option String) : Bool := (getPresent o).isSome

def lowerChars (s : String) : List Char := s.toList.map Char.toLower

/-- Anchored case-insensitive match: `new RegExp("^" ++ p ++ "$", "i")`. -/
def ciEq (a b : String) : Bool := lowerChars a == lowerChars b

/-- Unanchored case-insensitive match: `new RegExp(p, "i")`, i.e. substring
containment (for patterns without regex metacharacters). -/
def ciSub (pat hay : String) : Bool :=
  let p := lowerChars pat
  let h := lowerChars hay
  (List.range (h.length + 1)).any (fun i => p.isPrefixOf (h.drop i))

def Store.findBoardByTitleExact (s : Store) (t : String) : Option BoardDoc :=
  s.boards.find? (fun b => ciEq b.title t)

def Store.findBoardById : Store → Option Nat → Option BoardDoc
  | s, some i => s.boards.find? (fun b => b.id == i)
  | _, none => none

/-- Stable insertion keeping larger `createdAt` first (`sort({createdAt:-1})`). -/
def insertByCreatedDesc (d : BoardDoc) : List BoardDoc → List BoardDoc
  | [] => [d]
  | x :: xs =>
      if d.createdAt ≤ x.createdAt then x :: insertByCreatedDesc d xs
      else d :: x :: xs

def sortByCreatedDesc (l : List BoardDoc) : List BoardDoc :=
  l.foldr insertByCreatedDesc []

/-- `Board.findOne().sort({ createdAt: -1 })`: most recently created board. -/
def Store.mostRecentBoard (s : Store) : Option BoardDoc :=
  (sortByCreatedDesc s.boards).head?

/-- The delete dispatch table: `if (data.type === ...) { Model = ...; field = ... }`. -/
inductive DelKind where
  | task
  | bucket
  | board
  | member
deriving Repr, DecidableEq

def delKindOf (ty : String) : Option DelKind :=
  if ty == "task" then some .task
  else if ty == "bucket" then some .bucket
  else if ty == "project" then some .board
  else if ty == "member" then some .member
  else none

/-- `Model.findOne({ [field]: new RegExp(data.name, "i") })` for the chosen
model, packaged as a snapshot candidate. -/
def Store.findOneSnap (s : Store) (k : DelKind) (nm : String) : Option SnapData :=
  match k with
  | .task => (s.tasks.find? (fun d => ciSub nm d.title)).map SnapData.task
  | .bucket => (s.buckets.find? (fun d => ciSub nm d.title)).map SnapData.bucket
  | .board => (s.boards.find? (fun d => ciSub nm d.title)).map SnapData.board
  | .member => (s.users.find? (fun d => ciSub nm d.name)).map SnapData.user

def SnapData.docId : SnapData → Nat
  | .board d => d.id
  | .bucket d => d.id
  | .task d => d.id
  | .user d => d.id

/-- `Model.deleteOne({ _id: doc._id })`. -/
def Store.deleteOneSnap (s : Store) : SnapData → Store
  | .board d => { s with boards := s.boards.eraseP (fun x => x.id == d.id) }
  | .bucket d => { s with buckets := s.buckets.eraseP (fun x => x.id == d.id) }
  | .task d => { s with tasks := s.tasks.eraseP (fun x => x.id == d.id) }
  | .user d => { s with users := s.users.eraseP (fun x => x.id == d.id) }

/-- `model.create(data)` with `data = doc.toObject()`: the document is
re-inserted verbatim, original `_id` included. -/
def Store.insertSnap (s : Store) : SnapData → Store
  | .board d => { s with boards := s.boards ++ [d] }
  | .bucket d => { s with buckets := s.buckets ++ [d] }
  | .task d => { s with tasks := s.tasks ++ [d] }
  | .user d => { s with users := s.users ++ [d] }

/-- Context after a successful delete: `ctx.lastDeleted` is set, then
`activeBoardId` is cleared when a project equal to the active board was
deleted. -/
def postDeleteCtx (ty : String) (snap : SnapData) (ctx : Ctx) : Ctx :=
  let ctx1 := { ctx with lastDeleted := some snap }
  if ty == "project" && ctx1.activeBoardId == some snap.docId then
    { ctx1 with activeBoardId := none }
  else ctx1

/-- The delete case (first variant, lines 228-264). -/
def handleDelete (data : LLMData) (aiReply : String) (s : Store) (ctx : Ctx) :
    String × Store × Ctx :=
  match getPresent data.type, getPresent data.name with
  | some ty, some nm =>
    match delKindOf ty with
    | none => ("Invalid delete request.", s, ctx)
    | some k =>
      match s.findOneSnap k nm with
      | none => ("Nothing found to delete.", s, ctx)
      | some snap => (aiReply, s.deleteOneSnap snap, postDeleteCtx ty snap ctx)
  | _, _ => (aiReply, s, ctx)

/-- The undo case (first variant, lines 267-275). -/
def handleUndo (s : Store) (ctx : Ctx) : String × Store × Ctx :=
  match ctx.lastDeleted with
  | none => ("Nothing to undo.", s, ctx)
  | some snap =>
      ("Undo successful ✅", s.insertSnap snap, { ctx with lastDeleted := none })

/-- The create_project case (lines 130-140). -/
def handleCreateProject (data : LLMData) (aiReply : String) (s : Store) (ctx : Ctx) :
    String × Store × Ctx :=
  match getPresent data.title with
  | none => (aiReply, s, ctx)
  | some t =>
    let d : BoardDoc := ⟨s.nextId, t, s.nextId⟩
    ("Project \"" ++ t ++ "\" created and set as active",
     { s with boards := s.boards ++ [d], nextId := s.nextId + 1 },
     { ctx with activeBoardId := some d.id })

/-- The set_active_project case (lines 143-156). -/
def handleSetActiveProject (data : LLMData) (aiReply : String) (s : Store) (ctx : Ctx) :
    String × Store × Ctx :=
  match getPresent data.title with
  | none => (aiReply, s, ctx)
  | some t =>
    match s.findBoardByTitleExact t with
    | none => ("Project not found.", s, ctx)
    | some b =>
        ("Switched to project \"" ++ b.title ++ "\"", s,
         { ctx with activeBoardId := some b.id })

/-- The add_bucket case of the first variant (lines 159-180). -/
def handleAddBucket (data : LLMData) (aiReply : String) (s : Store) (ctx : Ctx) :
    String × Store × Ctx :=
  match getPresent data.title with
  | none => (aiReply, s, ctx)
  | some t =>
    match s.findBoardById ctx.activeBoardId with
    | none =>
        ("Active project is invalid. Please select a project.", s,
         { ctx with activeBoardId := none })
    | some b =>
        ("Bucket \"" ++ t ++ "\" added to project \"" ++ b.title ++ "\"",
         { s with buckets := s.buckets ++ [⟨s.nextId, t, b.id⟩], nextId := s.nextId + 1 },
         ctx)

/-- The add_task case of the first variant (lines 183-207). -/
def handleAddTask (data : LLMData) (aiReply : String) (s : Store) (ctx : Ctx) :
    String × Store × Ctx :=
  match getPresent data.title, getPresent data.bucket with
  | some t, some bk =>
    match s.findBoardById ctx.activeBoardId with
    | none => ("Please select a project first.", s, ctx)
    | some b =>
      match s.buckets.find? (fun d => ciEq d.title bk && d.boardId == b.id) with
      | none => ("Bucket not found in the active project.", s, ctx)
      | some bu =>
          (aiReply,
           { s with tasks := s.tasks ++ [⟨s.nextId, t, bu.id⟩], nextId := s.nextId + 1 },
           ctx)
  | _, _ => (aiReply, s, ctx)

/-- Initials computation of add_member: split on spaces, first letter of
each word (`join` drops the `undefined` of empty words), uppercased. -/
def initialsOf (name : String) : String :=
  String.toUpper (String.mk (((name.splitOn " ").map (fun w => w.toList.take 1)).flatten))

/-- The add_member case (lines 210-225). -/
def handleAddMember (data : LLMData) (aiReply : String) (s : Store) (ctx : Ctx) :
    String × Store × Ctx :=
  match getPresent data.name with
  | none => (aiReply, s, ctx)
  | some n =>
      (aiReply,
       { s with users := s.users ++ [⟨s.nextId, n, initialsOf n, "bg-blue-500"⟩],
                nextId := s.nextId + 1 },
       ctx)

/-- The show_projects case (lines 278-282). -/
def handleShowProjects (aiReply : String) (s : Store) (ctx : Ctx) :
    String × Store × Ctx :=
  (aiReply, s, { ctx with lastResult := some (.boards (sortByCreatedDesc s.boards)) })

/-- The show_buckets case (lines 285-294). -/
def handleShowBuckets (aiReply : String) (s : Store) (ctx : Ctx) :
    String × Store × Ctx :=
  match s.findBoardById ctx.activeBoardId with
  | none => ("Please select a project first.", s, ctx)
  | some b =>
      (aiReply, s,
       { ctx with lastResult := some (.buckets (s.buckets.filter (fun d => d.boardId == b.id) : List BucketDoc)) })

/-- The show_tasks case (lines 297-320). -/
def handleShowTasks (data : LLMData) (aiReply : String) (s : Store) (ctx : Ctx) :
    String × Store × Ctx :=
  match s.findBoardById ctx.activeBoardId with
  | none => ("Please select a project first.", s, ctx)
  | some b =>
    let bucket : Option BucketDoc :=
      match getPresent data.bucket with
      | some bk => s.buckets.find? (fun d => ciSub bk d.title && d.boardId == b.id)
      | none => s.buckets.find? (fun d => d.boardId == b.id)
    match bucket with
    | none => (aiReply, s, ctx)
    | some bu =>
        (aiReply, s,
         { ctx with lastResult := some (.tasks (s.tasks.filter (fun d => d.bucketId == bu.id) : List TaskDoc)) })

/-- Request body of POST /chat. -/
structure ChatRequest where
  message : Option String
  activeProjectId : Option Nat
deriving Repr, DecidableEq

/-- Frontend-controlled active project (lines 108-110), applied before the
try block. -/
def applyActiveProjectOverride (req : ChatRequest) (ctx : Ctx) : Ctx :=
  match req.activeProjectId with
  | some pid => { ctx with activeBoardId := some pid }
  | none => ctx

/-- Auto switch project if provided (lines 120-125). -/
def autoSwitchProject (data : LLMData) (s : Store) (ctx : Ctx) : Ctx :=
  match getPresent data.project with
  | some p =>
    match s.findBoardByTitleExact p with
    | some b => { ctx with activeBoardId := some b.id }
    | none => ctx
  | none => ctx

/-- The switch over `action` (lines 127-326). -/
def dispatch (action : String) (ai : LLMResult) (s : Store) (ctx : Ctx) :
    String × Store × Ctx :=
  if action == "create_project" then handleCreateProject ai.data ai.reply s ctx
  else if action == "set_active_project" then handleSetActiveProject ai.data ai.reply s ctx
  else if action == "add_bucket" then handleAddBucket ai.data ai.reply s ctx
  else if action == "add_task" then handleAddTask ai.data ai.reply s ctx
  else if action == "add_member" then handleAddMember ai.data ai.reply s ctx
  else if action == "delete" then handleDelete ai.data ai.reply s ctx
  else if action == "undo" then handleUndo s ctx
  else if action == "show_projects" then handleShowProjects ai.reply s ctx
  else if action == "show_buckets" then handleShowBuckets ai.reply s ctx
  else if action == "show_tasks" then handleShowTasks ai.data ai.reply s ctx
  else (ai.reply, s, ctx)

/-- The whole POST /chat handler of the first variant (lines 101-332),
as a function of the request, the classifier oracle, the store and the
session context, returning the reply and the new store and context. -/
def handleChat (req : ChatRequest) (llm : LLMOutcome) (s : Store) (ctx : Ctx) :
    String × Store × Ctx :=
  if present req.message then
    let ctx0 := applyActiveProjectOverride req ctx
    match callLLM llm with
    | .error _ => ("Backend error. Please try again.", s, ctx0)
    | .ok ai =>
      let action := if ai.action == "" then "none" else ai.action
      let ctx1 := autoSwitchProject ai.data s ctx0
      dispatch action ai s ctx1
  else ("Empty message", s, ctx)

/-- The add_bucket case of the second router variant (lines 463-480):
`ctx.activeBoardId ? Board.findById(...) : Board.findOne().sort({createdAt:-1})`,
then fail with a guidance reply when no board was found. -/
def addBucketV2 (data : LLMData) (aiReply : String) (s : Store) (ctx : Ctx) :
    String × Store :=
  match getPresent data.title with
  | none => (aiReply, s)
  | some t =>
    let board :=
      match ctx.activeBoardId with
      | some i => s.findBoardById (some i)
      | none => s.mostRecentBoard
    match board with
    | none => ("Please create a board first.", s)
    | some b =>
        (aiReply,
         { s with buckets := s.buckets ++ [⟨s.nextId, t, b.id⟩], nextId := s.nextId + 1 })

/-- The add_task case of the second router variant (lines 483-500): the
bucket is looked up globally by anchored case-insensitive title, with no
reference to the session's active board or to the boards collection at
all. -/
def addTaskV2 (data : LLMData) (aiReply : String) (s : Store) : String × Store :=
  match getPresent data.title, getPresent data.bucket with
  | some t, some bk =>
    match s.buckets.find? (fun d => ciEq d.title bk) with
    | none => ("Bucket not found.", s)
    | some bu =>
        (aiReply,
         { s with tasks := s.tasks ++ [⟨s.nextId, t, bu.id⟩], nextId := s.nextId + 1 })
  | _, _ => (aiReply, s)

/-! ## General lemmas about the handler -/

/-- Reduction of `handleChat` to the action dispatch for a plain request:
message present, no frontend active-project override, no project slot. -/
theorem handleChat_ok (req : ChatRequest) (ai : LLMResult) (s : Store) (ctx : Ctx)
    (hm : present req.message = true)
    (hapi : req.activeProjectId = none)
    (hproj : getPresent ai.data.project = none) :
    handleChat req (.ok ai) s ctx =
      dispatch (if ai.action == "" then "none" else ai.action) ai s ctx := by
  unfold handleChat
  rw [hm]
  simp only [callLLM, applyActiveProjectOverride, hapi, autoSwitchProject, hproj, if_true]

theorem handleChat_delete_eq (req : ChatRequest) (ai : LLMResult) (s : Store) (ctx : Ctx)
    (hm : present req.message = true)
    (hapi : req.activeProjectId = none)
    (hproj : getPresent ai.data.project = none)
    (ha : ai.action = "delete") :
    handleChat req (.ok ai) s ctx = handleDelete ai.data ai.reply s ctx := by
  rw [handleChat_ok req ai s ctx hm hapi hproj, ha]
  rfl

theorem handleChat_undo_eq (req : ChatRequest) (ai : LLMResult) (s : Store) (ctx : Ctx)
    (hm : present req.message = true)
    (hapi : req.activeProjectId = none)
    (hproj : getPresent ai.data.project = none)
    (ha : ai.action = "undo") :
    handleChat req (.ok ai) s ctx = handleUndo s ctx := by
  rw [handleChat_ok req ai s ctx hm hapi hproj, ha]
  rfl

theorem handleChat_add_bucket_eq (req : ChatRequest) (ai : LLMResult) (s : Store) (ctx : Ctx)
    (hm : present req.message = true)
    (hapi : req.activeProjectId = none)
    (hproj : getPresent ai.data.project = none)
    (ha : ai.action = "add_bucket") :
    handleChat req (.ok ai) s ctx = handleAddBucket ai.data ai.reply s ctx := by
  rw [handleChat_ok req ai s ctx hm hapi hproj, ha]
  rfl

theorem handleChat_add_task_eq (req : ChatRequest) (ai : LLMResult) (s : Store) (ctx : Ctx)
    (hm : present req.message = true)
    (hapi : req.activeProjectId = none)
    (hproj : getPresent ai.data.project = none)
    (ha : ai.action = "add_task") :
    handleChat req (.ok ai) s ctx = handleAddTask ai.data ai.reply s ctx := by
  rw [handleChat_ok req ai s ctx hm hapi hproj, ha]
  rfl

/-- Reduction of `handleChat` to the action dispatch for any request with a
message, keeping the context updates done before the switch (the
frontend-controlled override of lines 108-110 and the auto project switch
of lines 120-125) explicit. -/
theorem handleChat_ok_pre (req : ChatRequest) (ai : LLMResult) (s : Store) (ctx : Ctx)
    (hm : present req.message = true) :
    handleChat req (.ok ai) s ctx =
      dispatch (if ai.action == "" then "none" else ai.action) ai s
        (autoSwitchProject ai.data s (applyActiveProjectOverride req ctx)) := by
  unfold handleChat
  rw [hm]
  rfl

theorem applyActiveProjectOverride_lastDeleted (req : ChatRequest) (ctx : Ctx) :
    (applyActiveProjectOverride req ctx).lastDeleted = ctx.lastDeleted := by
  unfold applyActiveProjectOverride
  cases req.activeProjectId <;> rfl

theorem autoSwitchProject_lastDeleted (data : LLMData) (s : Store) (ctx : Ctx) :
    (autoSwitchProject data s ctx).lastDeleted = ctx.lastDeleted := by
  unfold autoSwitchProject
  cases getPresent data.project with
  | none => rfl
  | some p => cases h : s.findBoardByTitleExact p <;> simp [h]

theorem handleDelete_found (data : LLMData) (r : String) (s : Store) (ctx : Ctx)
    (ty nm : String) (k : DelKind) (snap : SnapData)
    (hty : getPresent data.type = some ty)
    (hnm : getPresent data.name = some nm)
    (hk : delKindOf ty = some k)
    (hfind : s.findOneSnap k nm = some snap) :
    handleDelete data r s ctx = (r, s.deleteOneSnap snap, postDeleteCtx ty snap ctx) := by
  simp only [handleDelete, hty, hnm, hk, hfind]

theorem postDeleteCtx_lastDeleted (ty : String) (snap : SnapData) (ctx : Ctx) :
    (postDeleteCtx ty snap ctx).lastDeleted = some snap := by
  simp only [postDeleteCtx]
  split <;> rfl

theorem postDeleteCtx_activeBoardId (ty : String) (snap : SnapData) (ctx : Ctx) :
    (postDeleteCtx ty snap ctx).activeBoardId =
      if ty == "project" && ctx.activeBoardId == some snap.docId then none
      else ctx.activeBoardId := by
  simp only [postDeleteCtx]
  split <;> simp_all

theorem handleUndo_some (s : Store) (ctx : Ctx) (snap : SnapData)
    (hlast : ctx.lastDeleted = some snap) :
    handleUndo s ctx =
      ("Undo successful ✅", s.insertSnap snap, { ctx with lastDeleted := none }) := by
  simp only [handleUndo, hlast]

theorem handleUndo_none (s : Store) (ctx : Ctx)
    (hlast : ctx.lastDeleted = none) :
    handleUndo s ctx = ("Nothing to undo.", s, ctx) := by
  simp only [handleUndo, hlast]

/-- Erasing the first document with the id of `b` and appending `b` back is
a permutation of the original collection, provided ids are unique. -/
theorem erase_insert_perm (l : List BoardDoc) (b : BoardDoc)
    (hb : b ∈ l) (hnd : (l.map BoardDoc.id).Nodup) :
    List.Perm (l.eraseP (fun x => x.id == b.id) ++ [b]) l := by
  have pb : (fun x : BoardDoc => x.id == b.id) b = true := by simp
  obtain ⟨a, l₁, l₂, _, pa, hl, he⟩ :=
    List.exists_of_eraseP (p := fun x => x.id == b.id) hb pb
  have hab : a = b := by
    have ha2 : a ∈ l := by
      rw [hl]
      exact List.mem_append_right _ (List.mem_cons_self _ _)
    have hid : a.id = b.id := by simpa using pa
    exact List.inj_on_of_nodup_map hnd ha2 hb hid
  rw [he, List.append_assoc]
  conv_rhs => rw [hl, hab]
  exact List.Perm.append_left l₁ (List.perm_append_singleton b l₂)

/-! ## Concrete fixtures -/

/-- Classifier result for a delete request. -/
def delAi (ty nm : String) : LLMResult :=
  ⟨"delete", ⟨none, none, some nm, some ty, none⟩, "Deleted."⟩

/-- Classifier result for an undo request. -/
def undoAi : LLMResult := ⟨"undo", LLMData.empty, "ok"⟩

/-- A store holding a single board. -/
def oneBoardStore : Store := ⟨[⟨0, "Alpha", 0⟩], [], [], [], 1⟩

/-- A store holding one board, one bucket owned by it, one task in the bucket. -/
def treeStore : Store := ⟨[⟨0, "Alpha", 0⟩], [⟨1, "B1", 0⟩], [⟨2, "T1", 1⟩], [], 3⟩

/-! ## C1 -/

/-- Claim C1 is false on the code: a delete request whose query matches
exactly one entity (board Alpha, the only record in the store) deletes the
record in the same request, with no pending confirmation; the store is
mutated immediately and the snapshot lands in `lastDeleted`. -/
theorem C1_counterexample :
    (handleChat ⟨some "delete project Alpha", none⟩ (.ok (delAi "project" "Alpha"))
        oneBoardStore Ctx.empty).2.1.boards = [] ∧
    (handleChat ⟨some "delete project Alpha", none⟩ (.ok (delAi "project" "Alpha"))
        oneBoardStore Ctx.empty).2.2.lastDeleted = some (.board ⟨0, "Alpha", 0⟩) :=
  ⟨rfl, rfl⟩

/-- Claim C1 amended: handling a delete request whose query resolves to a
candidate deletes that record from the store in the same request and stores
its snapshot as `lastDeleted`; there is no pendingDelete state, no
AWAITING_CONFIRMATION transition and no confirmation message. -/
theorem C1_amended (req : ChatRequest) (ai : LLMResult) (s : Store) (ctx : Ctx)
    (ty nm : String) (k : DelKind) (snap : SnapData)
    (hm : present req.message = true)
    (hapi : req.activeProjectId = none)
    (hproj : getPresent ai.data.project = none)
    (ha : ai.action = "delete")
    (hty : getPresent ai.data.type = some ty)
    (hnm : getPresent ai.data.name = some nm)
    (hk : delKindOf ty = some k)
    (hfind : s.findOneSnap k nm = some snap) :
    handleChat req (.ok ai) s ctx
      = (ai.reply, s.deleteOneSnap snap, postDeleteCtx ty snap ctx) := by
  rw [handleChat_delete_eq req ai s ctx hm hapi hproj ha,
      handleDelete_found ai.data ai.reply s ctx ty nm k snap hty hnm hk hfind]

/-- Claim C1 amended, witnessed on the one-board store. -/
theorem C1_amended_witness :
    handleChat ⟨some "delete project Alpha", none⟩ (.ok (delAi "project" "Alpha"))
        oneBoardStore Ctx.empty
      = ("Deleted.", oneBoardStore.deleteOneSnap (.board ⟨0, "Alpha", 0⟩),
         postDeleteCtx "project" (.board ⟨0, "Alpha", 0⟩) Ctx.empty) :=
  C1_amended _ _ _ _ "project" "Alpha" .board (.board ⟨0, "Alpha", 0⟩)
    rfl rfl rfl rfl rfl rfl rfl rfl

/-! ## C2 -/

/-- Claim C2 is false on the code: deleting board Alpha, which owns bucket
B1 which owns task T1, removes only the board record; the bucket and the
task stay in the store and the snapshot captures only the board fields. -/
theorem C2_counterexample :
    (handleChat ⟨some "delete project Alpha", none⟩ (.ok (delAi "project" "Alpha"))
        treeStore Ctx.empty).2.1.buckets = [⟨1, "B1", 0⟩] ∧
    (handleChat ⟨some "delete project Alpha", none⟩ (.ok (delAi "project" "Alpha"))
        treeStore Ctx.empty).2.1.tasks = [⟨2, "T1", 1⟩] ∧
    (handleChat ⟨some "delete project Alpha", none⟩ (.ok (delAi "project" "Alpha"))
        treeStore Ctx.empty).2.2.lastDeleted = some (.board ⟨0, "Alpha", 0⟩) :=
  ⟨rfl, rfl, rfl⟩

/-- Claim C2 amended: deleting a candidate of kind board captures only the
board document itself and deletes only the board record; the owned buckets
and their tasks are neither captured nor deleted. -/
theorem C2_amended (req : ChatRequest) (ai : LLMResult) (s : Store) (ctx : Ctx)
    (nm : String) (b : BoardDoc)
    (hm : present req.message = true)
    (hapi : req.activeProjectId = none)
    (hproj : getPresent ai.data.project = none)
    (ha : ai.action = "delete")
    (hty : getPresent ai.data.type = some "project")
    (hnm : getPresent ai.data.name = some nm)
    (hfind : s.boards.find? (fun d => ciSub nm d.title) = some b) :
    handleChat req (.ok ai) s ctx
      = (ai.reply,
         { s with boards := s.boards.eraseP (fun x => x.id == b.id) },
         postDeleteCtx "project" (.board b) ctx) := by
  have hfind2 : s.findOneSnap .board nm = some (.board b) := by
    simp [Store.findOneSnap, hfind]
  rw [handleChat_delete_eq req ai s ctx hm hapi hproj ha,
      handleDelete_found ai.data ai.reply s ctx "project" nm .board (.board b) hty hnm rfl hfind2]
  rfl

/-- Claim C2 amended, witnessed on the board-bucket-task store. -/
theorem C2_amended_witness :
    handleChat ⟨some "delete project Alpha", none⟩ (.ok (delAi "project" "Alpha"))
        treeStore Ctx.empty
      = ("Deleted.",
         { treeStore with boards := treeStore.boards.eraseP (fun x => x.id == (0 : Nat)) },
         postDeleteCtx "project" (.board ⟨0, "Alpha", 0⟩) Ctx.empty) :=
  C2_amended _ _ _ _ "Alpha" ⟨0, "Alpha", 0⟩ rfl rfl rfl rfl rfl rfl rfl

/-! ## C3 -/

/-- Claim C3: deleting a board (with any number of buckets and tasks) and
then issuing undo yields a store whose boards are a permutation of the
pre-delete boards and whose buckets and tasks are exactly the pre-delete
ones, so the board, its N buckets and its M tasks all reappear with
field values matching the pre-delete set and every task still belongs to
the bucket corresponding to its pre-delete bucket.  (The code deletes only
the board record and recreates it verbatim on undo, so the equivalence even
holds with identical ids — the claim only allows ids to differ, it does not
require it.) -/
theorem C3_roundtrip
    (req1 req2 : ChatRequest) (ai1 ai2 : LLMResult) (s : Store) (ctx : Ctx)
    (nm : String) (b : BoardDoc)
    (hm1 : present req1.message = true)
    (hapi1 : req1.activeProjectId = none)
    (hproj1 : getPresent ai1.data.project = none)
    (ha1 : ai1.action = "delete")
    (hty1 : getPresent ai1.data.type = some "project")
    (hnm1 : getPresent ai1.data.name = some nm)
    (hfind : s.boards.find? (fun d => ciSub nm d.title) = some b)
    (hnodup : (s.boards.map BoardDoc.id).Nodup)
    (hm2 : present req2.message = true)
    (hapi2 : req2.activeProjectId = none)
    (hproj2 : getPresent ai2.data.project = none)
    (ha2 : ai2.action = "undo") :
    let r1 := handleChat req1 (.ok ai1) s ctx
    let r2 := handleChat req2 (.ok ai2) r1.2.1 r1.2.2
    List.Perm r2.2.1.boards s.boards ∧ r2.2.1.buckets = s.buckets ∧
      r2.2.1.tasks = s.tasks := by
  intro r1 r2
  have hfind2 : s.findOneSnap .board nm = some (.board b) := by
    simp [Store.findOneSnap, hfind]
  have h1 : r1 = (ai1.reply, s.deleteOneSnap (.board b),
      postDeleteCtx "project" (.board b) ctx) := by
    show handleChat req1 (.ok ai1) s ctx = _
    rw [handleChat_delete_eq req1 ai1 s ctx hm1 hapi1 hproj1 ha1,
        handleDelete_found ai1.data ai1.reply s ctx "project" nm .board (.board b)
          hty1 hnm1 rfl hfind2]
  have h2 : r2 = ("Undo successful ✅",
      (s.deleteOneSnap (.board b)).insertSnap (.board b),
      { postDeleteCtx "project" (.board b) ctx with lastDeleted := none }) := by
    show handleChat req2 (.ok ai2) r1.2.1 r1.2.2 = _
    rw [h1]
    rw [handleChat_undo_eq req2 ai2 _ _ hm2 hapi2 hproj2 ha2,
        handleUndo_some _ _ (.board b) (postDeleteCtx_lastDeleted _ _ _)]
  rw [h2]
  refine ⟨?_, rfl, rfl⟩
  show List.Perm (s.boards.eraseP (fun x => x.id == b.id) ++ [b]) s.boards
  exact erase_insert_perm s.boards b (List.mem_of_find?_eq_some hfind) hnodup

/-- Claim C3, witnessed: board Alpha with one bucket and one task is
deleted and undone; the final store equals the original up to permutation
of the board list. -/
theorem C3_roundtrip_witness :
    (let r1 := handleChat ⟨some "delete project Alpha", none⟩
        (.ok (delAi "project" "Alpha")) treeStore Ctx.empty
     let r2 := handleChat ⟨some "undo", none⟩ (.ok undoAi) r1.2.1 r1.2.2
     List.Perm r2.2.1.boards treeStore.boards ∧ r2.2.1.buckets = treeStore.buckets ∧
       r2.2.1.tasks = treeStore.tasks) :=
  C3_roundtrip _ _ _ _ treeStore Ctx.empty "Alpha" ⟨0, "Alpha", 0⟩
    rfl rfl rfl rfl rfl rfl rfl (by decide) rfl rfl rfl rfl

/-! ## C4 -/

/-- Session context holding an undoable snapshot, used to show the
classifier failure path performs no intent resolution. -/
def snapCtx : Ctx := ⟨none, some (.board ⟨5, "Old", 0⟩), none⟩

/-- Claim C4 is false on the code: when the classifier call fails or times
out (axios throws), the failure is surfaced to the caller as the reply
"Backend error. Please try again." and no intent is resolved at all — here
an undo message with an undoable snapshot present leaves the snapshot
unconsumed and the store untouched, instead of heuristically resolving the
undo.  There is no pattern-based fallback in the code. -/
theorem C4_counterexample :
    (handleChat ⟨some "undo", none⟩ .failure oneBoardStore snapCtx).1
      = "Backend error. Please try again." ∧
    (handleChat ⟨some "undo", none⟩ .failure oneBoardStore snapCtx).2.1
      = oneBoardStore ∧
    (handleChat ⟨some "undo", none⟩ .failure oneBoardStore snapCtx).2.2.lastDeleted
      = some (.board ⟨5, "Old", 0⟩) :=
  ⟨rfl, rfl, rfl⟩

/-- Claim C4 amended: there are no pattern-based heuristics.  A classifier
transport failure or timeout is caught by the route-level handler and
surfaced as the generic reply "Backend error. Please try again." with no
store mutation; only an HTTP-OK response with unparseable JSON content is
absorbed inside callLLM, which then proceeds with the fixed action "none"
and the canned clarification reply, again with no store mutation. -/
theorem C4_amended (req : ChatRequest) (s : Store) (ctx : Ctx)
    (hm : present req.message = true) :
    handleChat req .failure s ctx
      = ("Backend error. Please try again.", s, applyActiveProjectOverride req ctx) ∧
    handleChat req .badJSON s ctx
      = ("I could not understand that. Could you rephrase?", s,
         applyActiveProjectOverride req ctx) := by
  constructor
  · unfold handleChat
    rw [hm]
    rfl
  · unfold handleChat
    rw [hm]
    rfl

/-- Claim C4 amended, witnessed at a plain message. -/
theorem C4_amended_witness :
    handleChat ⟨some "hello", none⟩ .failure oneBoardStore Ctx.empty
      = ("Backend error. Please try again.", oneBoardStore,
         applyActiveProjectOverride ⟨some "hello", none⟩ Ctx.empty) ∧
    handleChat ⟨some "hello", none⟩ .badJSON oneBoardStore Ctx.empty
      = ("I could not understand that. Could you rephrase?", oneBoardStore,
         applyActiveProjectOverride ⟨some "hello", none⟩ Ctx.empty) :=
  C4_amended ⟨some "hello", none⟩ oneBoardStore Ctx.empty rfl

/-! ## C5 -/

/-- First step of the C5 scenario: board Alpha (id 0) is deleted. -/
def C5afterDelete : String × Store × Ctx :=
  handleChat ⟨some "delete project Alpha", none⟩ (.ok (delAi "project" "Alpha"))
    oneBoardStore Ctx.empty

/-- Second step of the C5 scenario: the deletion is undone. -/
def C5afterUndo : String × Store × Ctx :=
  handleChat ⟨some "undo", none⟩ (.ok undoAi) C5afterDelete.2.1 C5afterDelete.2.2

/-- Claim C5 is false on the code: the snapshot data is `doc.toObject()`,
which includes the original `_id`, and `model.create(data)` reuses a
supplied `_id`; undoing the deletion of board Alpha (id 0) recreates the
board with storage id 0, equal to its original id, not a newly assigned
one. -/
theorem C5_counterexample :
    C5afterUndo.2.1.boards = [⟨0, "Alpha", 0⟩] ∧
    oneBoardStore.boards = [⟨0, "Alpha", 0⟩] :=
  ⟨rfl, rfl⟩

/-- Claim C5 amended: the snapshot keeps the original id of the captured
record, and undo recreates the record verbatim — the recreated entity
receives exactly the original storage id, not a newly assigned one. -/
theorem C5_amended (req : ChatRequest) (ai : LLMResult) (s : Store) (ctx : Ctx)
    (snap : SnapData)
    (hm : present req.message = true)
    (hapi : req.activeProjectId = none)
    (hproj : getPresent ai.data.project = none)
    (ha : ai.action = "undo")
    (hlast : ctx.lastDeleted = some snap) :
    handleChat req (.ok ai) s ctx
      = ("Undo successful ✅", s.insertSnap snap, { ctx with lastDeleted := none }) := by
  rw [handleChat_undo_eq req ai s ctx hm hapi hproj ha, handleUndo_some s ctx snap hlast]

/-- Claim C5 amended, witnessed: the undo of the Alpha deletion re-inserts
the snapshot document with its original id 0. -/
theorem C5_amended_witness :
    handleChat ⟨some "undo", none⟩ (.ok undoAi) oneBoardStore snapCtx
      = ("Undo successful ✅", oneBoardStore.insertSnap (.board ⟨5, "Old", 0⟩),
         { snapCtx with lastDeleted := none }) :=
  C5_amended _ _ _ _ (.board ⟨5, "Old", 0⟩) rfl rfl rfl rfl rfl

/-! ## C6 -/

/-- A session remembering a stale active board id that matches no record. -/
def staleCtx : Ctx := ⟨some 99, none, none⟩

/-- Classifier result for an add_bucket request with title B. -/
def addBucketAi : LLMResult := ⟨"add_bucket", ⟨some "B", none, none, none, none⟩, "ok"⟩

/-- A store with no records at all. -/
def emptyStore : Store := ⟨[], [], [], [], 0⟩

/-- Claim C6 is false on the code: in the first router variant, an
add_bucket request in a session whose remembered active board id (99) does
not resolve to a live record replies with the invalid-active message and
creates nothing, even though a most-recently-created board (Alpha) exists
and, per the claim, should have been targeted. -/
theorem C6_counterexample :
    (handleChat ⟨some "add bucket B", none⟩ (.ok addBucketAi) oneBoardStore staleCtx).1
      = "Active project is invalid. Please select a project." ∧
    (handleChat ⟨some "add bucket B", none⟩ (.ok addBucketAi) oneBoardStore staleCtx).2.1.buckets
      = [] ∧
    oneBoardStore.mostRecentBoard = some ⟨0, "Alpha", 0⟩ :=
  ⟨rfl, rfl, rfl⟩

/-- Classifier result for an add_task request with title T in bucket B1. -/
def addTaskAi : LLMResult := ⟨"add_task", ⟨some "T", some "B1", none, none, none⟩, "ok"⟩

/-- A store with no board at all but a dangling bucket. -/
def danglingStore : Store := ⟨[], [⟨0, "B1", 99⟩], [], [], 1⟩

/-- Claim C6 amended: (a) in the first router variant, an add_bucket whose
remembered active board does not resolve to a live record fails with the
reply "Active project is invalid. Please select a project.", clears the
remembered id and creates nothing — it never falls back to another board;
(b) likewise a first-variant add_task then fails with "Please select a
project first." and creates nothing, with no fall-back; (c) in the second
variant the add_bucket fall-back to the most-recently-created board
happens only when no active board id is remembered at all; (d) a
remembered-but-stale id fails there with "Please create a board first."
without falling back, as does (e) an empty board collection; (f) the
second-variant add_task consults neither the active board nor the boards
collection: whenever a bucket with the requested title exists the task is
created — even when no board exists at all — and (g) only a missing bucket
makes it fail, with "Bucket not found." and nothing created. -/
theorem C6_amended (req : ChatRequest) (aiB aiT : LLMResult) (s : Store) (ctx : Ctx)
    (t t2 bk : String)
    (hm : present req.message = true)
    (hapi : req.activeProjectId = none)
    (hprojB : getPresent aiB.data.project = none)
    (haB : aiB.action = "add_bucket")
    (htB : getPresent aiB.data.title = some t)
    (hprojT : getPresent aiT.data.project = none)
    (haT : aiT.action = "add_task")
    (htT : getPresent aiT.data.title = some t2)
    (hbkT : getPresent aiT.data.bucket = some bk) :
    (s.findBoardById ctx.activeBoardId = none →
       handleChat req (.ok aiB) s ctx
         = ("Active project is invalid. Please select a project.", s,
            { ctx with activeBoardId := none })) ∧
    (s.findBoardById ctx.activeBoardId = none →
       handleChat req (.ok aiT) s ctx
         = ("Please select a project first.", s, ctx)) ∧
    (ctx.activeBoardId = none → ∀ b : BoardDoc, s.mostRecentBoard = some b →
       addBucketV2 aiB.data aiB.reply s ctx
         = (aiB.reply,
            { s with buckets := s.buckets ++ [⟨s.nextId, t, b.id⟩],
                     nextId := s.nextId + 1 })) ∧
    (∀ i : Nat, ctx.activeBoardId = some i → s.findBoardById (some i) = none →
       addBucketV2 aiB.data aiB.reply s ctx = ("Please create a board first.", s)) ∧
    (s.boards = [] →
       addBucketV2 aiB.data aiB.reply s ctx = ("Please create a board first.", s)) ∧
    (∀ bu : BucketDoc, s.buckets.find? (fun d => ciEq d.title bk) = some bu →
       addTaskV2 aiT.data aiT.reply s
         = (aiT.reply,
            { s with tasks := s.tasks ++ [⟨s.nextId, t2, bu.id⟩],
                     nextId := s.nextId + 1 })) ∧
    (s.buckets.find? (fun d => ciEq d.title bk) = none →
       addTaskV2 aiT.data aiT.reply s = ("Bucket not found.", s)) := by
  refine ⟨?_, ?_, ?_, ?_, ?_, ?_, ?_⟩
  · intro hfind
    rw [handleChat_add_bucket_eq req aiB s ctx hm hapi hprojB haB]
    simp [handleAddBucket, htB, hfind]
  · intro hfind
    rw [handleChat_add_task_eq req aiT s ctx hm hapi hprojT haT]
    simp [handleAddTask, htT, hbkT, hfind]
  · intro hact b hmost
    simp [addBucketV2, htB, hact, hmost]
  · intro i hact hfind
    simp [addBucketV2, htB, hact, hfind]
  · intro hempty
    cases hact : ctx.activeBoardId with
    | none =>
        have hmost : s.mostRecentBoard = none := by
          simp [Store.mostRecentBoard, sortByCreatedDesc, hempty]
        simp [addBucketV2, htB, hact, hmost]
    | some i =>
        have hfind : s.findBoardById (some i) = none := by
          simp [Store.findBoardById, hempty]
        simp [addBucketV2, htB, hact, hfind]
  · intro bu hfound
    simp [addTaskV2, htT, hbkT, hfound]
  · intro hnone
    simp [addTaskV2, htT, hbkT, hnone]

/-- Claim C6 amended, witnessed on concrete sessions: a stale active board
failing both first-variant actions, the no-active-board fall-back and the
stale and empty-store failures of second-variant add_bucket, and
second-variant add_task creating a task in a dangling bucket although no
board exists, while failing only on a missing bucket. -/
theorem C6_amended_witness :
    (handleChat ⟨some "add bucket B", none⟩ (.ok addBucketAi) oneBoardStore staleCtx
       = ("Active project is invalid. Please select a project.", oneBoardStore,
          { staleCtx with activeBoardId := none })) ∧
    (handleChat ⟨some "add task T to B1", none⟩ (.ok addTaskAi) oneBoardStore staleCtx
       = ("Please select a project first.", oneBoardStore, staleCtx)) ∧
    (addBucketV2 addBucketAi.data addBucketAi.reply oneBoardStore Ctx.empty
       = ("ok", { oneBoardStore with
                    buckets := oneBoardStore.buckets ++ [⟨1, "B", 0⟩],
                    nextId := 2 })) ∧
    (addBucketV2 addBucketAi.data addBucketAi.reply oneBoardStore staleCtx
       = ("Please create a board first.", oneBoardStore)) ∧
    (addBucketV2 addBucketAi.data addBucketAi.reply emptyStore Ctx.empty
       = ("Please create a board first.", emptyStore)) ∧
    (addTaskV2 addTaskAi.data addTaskAi.reply danglingStore
       = ("ok", { danglingStore with
                    tasks := danglingStore.tasks ++ [⟨1, "T", 0⟩],
                    nextId := 2 })) ∧
    (addTaskV2 addTaskAi.data addTaskAi.reply emptyStore
       = ("Bucket not found.", emptyStore)) :=
  ⟨(C6_amended ⟨some "add bucket B", none⟩ addBucketAi addTaskAi oneBoardStore staleCtx
      "B" "T" "B1" rfl rfl rfl rfl rfl rfl rfl rfl rfl).1 rfl,
   (C6_amended ⟨some "add task T to B1", none⟩ addBucketAi addTaskAi oneBoardStore staleCtx
      "B" "T" "B1" rfl rfl rfl rfl rfl rfl rfl rfl rfl).2.1 rfl,
   (C6_amended ⟨some "add bucket B", none⟩ addBucketAi addTaskAi oneBoardStore Ctx.empty
      "B" "T" "B1" rfl rfl rfl rfl rfl rfl rfl rfl rfl).2.2.1 rfl ⟨0, "Alpha", 0⟩ rfl,
   (C6_amended ⟨some "add bucket B", none⟩ addBucketAi addTaskAi oneBoardStore staleCtx
      "B" "T" "B1" rfl rfl rfl rfl rfl rfl rfl rfl rfl).2.2.2.1 99 rfl rfl,
   (C6_amended ⟨some "add bucket B", none⟩ addBucketAi addTaskAi emptyStore Ctx.empty
      "B" "T" "B1" rfl rfl rfl rfl rfl rfl rfl rfl rfl).2.2.2.2.1 rfl,
   (C6_amended ⟨some "add task T to B1", none⟩ addBucketAi addTaskAi danglingStore Ctx.empty
      "B" "T" "B1" rfl rfl rfl rfl rfl rfl rfl rfl rfl).2.2.2.2.2.1 ⟨0, "B1", 99⟩ rfl,
   (C6_amended ⟨some "add task T to B1", none⟩ addBucketAi addTaskAi emptyStore Ctx.empty
      "B" "T" "B1" rfl rfl rfl rfl rfl rfl rfl rfl rfl).2.2.2.2.2.2 rfl⟩

/-! ## C7 -/

/-- Claim C7: after two completed deletions with no undo in between, the
session snapshot is the second deletion only; the following undo restores
the second deleted entity alone (the first stays deleted), clears the
snapshot, and a further undo is rejected with "Nothing to undo." -/
theorem C7_second_delete_wins
    (req1 req2 req3 req4 : ChatRequest) (ai1 ai2 ai3 ai4 : LLMResult)
    (s : Store) (ctx : Ctx)
    (ty1 nm1 ty2 nm2 : String) (k1 k2 : DelKind) (snap1 snap2 : SnapData)
    (hm1 : present req1.message = true) (hapi1 : req1.activeProjectId = none)
    (hproj1 : getPresent ai1.data.project = none) (ha1 : ai1.action = "delete")
    (hty1 : getPresent ai1.data.type = some ty1)
    (hnm1 : getPresent ai1.data.name = some nm1)
    (hk1 : delKindOf ty1 = some k1)
    (hfind1 : s.findOneSnap k1 nm1 = some snap1)
    (hm2 : present req2.message = true) (hapi2 : req2.activeProjectId = none)
    (hproj2 : getPresent ai2.data.project = none) (ha2 : ai2.action = "delete")
    (hty2 : getPresent ai2.data.type = some ty2)
    (hnm2 : getPresent ai2.data.name = some nm2)
    (hk2 : delKindOf ty2 = some k2)
    (hfind2 : (s.deleteOneSnap snap1).findOneSnap k2 nm2 = some snap2)
    (hm3 : present req3.message = true) (hapi3 : req3.activeProjectId = none)
    (hproj3 : getPresent ai3.data.project = none) (ha3 : ai3.action = "undo")
    (hm4 : present req4.message = true) (hapi4 : req4.activeProjectId = none)
    (hproj4 : getPresent ai4.data.project = none) (ha4 : ai4.action = "undo") :
    let r1 := handleChat req1 (.ok ai1) s ctx
    let r2 := handleChat req2 (.ok ai2) r1.2.1 r1.2.2
    let r3 := handleChat req3 (.ok ai3) r2.2.1 r2.2.2
    let r4 := handleChat req4 (.ok ai4) r3.2.1 r3.2.2
    r2.2.2.lastDeleted = some snap2 ∧
    r3.2.1 = ((s.deleteOneSnap snap1).deleteOneSnap snap2).insertSnap snap2 ∧
    r3.2.2.lastDeleted = none ∧
    r4.1 = "Nothing to undo." ∧
    r4.2.1 = r3.2.1 := by
  intro r1 r2 r3 r4
  have h1 : r1 = (ai1.reply, s.deleteOneSnap snap1, postDeleteCtx ty1 snap1 ctx) := by
    show handleChat req1 (.ok ai1) s ctx = _
    rw [handleChat_delete_eq req1 ai1 s ctx hm1 hapi1 hproj1 ha1,
        handleDelete_found ai1.data ai1.reply s ctx ty1 nm1 k1 snap1 hty1 hnm1 hk1 hfind1]
  have h2 : r2 = (ai2.reply, (s.deleteOneSnap snap1).deleteOneSnap snap2,
      postDeleteCtx ty2 snap2 (postDeleteCtx ty1 snap1 ctx)) := by
    show handleChat req2 (.ok ai2) r1.2.1 r1.2.2 = _
    rw [h1, handleChat_delete_eq req2 ai2 _ _ hm2 hapi2 hproj2 ha2,
        handleDelete_found ai2.data ai2.reply _ _ ty2 nm2 k2 snap2 hty2 hnm2 hk2 hfind2]
  have h3 : r3 = ("Undo successful ✅",
      ((s.deleteOneSnap snap1).deleteOneSnap snap2).insertSnap snap2,
      { postDeleteCtx ty2 snap2 (postDeleteCtx ty1 snap1 ctx) with lastDeleted := none }) := by
    show handleChat req3 (.ok ai3) r2.2.1 r2.2.2 = _
    rw [h2, handleChat_undo_eq req3 ai3 _ _ hm3 hapi3 hproj3 ha3,
        handleUndo_some _ _ snap2 (postDeleteCtx_lastDeleted _ _ _)]
  have h4 : r4 = ("Nothing to undo.", r3.2.1, r3.2.2) := by
    show handleChat req4 (.ok ai4) r3.2.1 r3.2.2 = _
    rw [handleChat_undo_eq req4 ai4 _ _ hm4 hapi4 hproj4 ha4,
        handleUndo_none _ _ (by rw [h3])]
  refine ⟨?_, ?_, ?_, ?_, ?_⟩
  · rw [h2]
    exact postDeleteCtx_lastDeleted _ _ _
  · rw [h3]
  · rw [h3]
  · rw [h4]
  · rw [h4]

/-- A store holding two boards, Alpha then Beta. -/
def twoBoardStore : Store := ⟨[⟨0, "Alpha", 0⟩, ⟨1, "Beta", 1⟩], [], [], [], 2⟩

/-- Claim C7, witnessed: delete Alpha, delete Beta, undo (restores Beta
only), undo again (no-op). -/
theorem C7_second_delete_wins_witness :
    (let r1 := handleChat ⟨some "delete project Alpha", none⟩
        (.ok (delAi "project" "Alpha")) twoBoardStore Ctx.empty
     let r2 := handleChat ⟨some "delete project Beta", none⟩
        (.ok (delAi "project" "Beta")) r1.2.1 r1.2.2
     let r3 := handleChat ⟨some "undo", none⟩ (.ok undoAi) r2.2.1 r2.2.2
     let r4 := handleChat ⟨some "undo", none⟩ (.ok undoAi) r3.2.1 r3.2.2
     r2.2.2.lastDeleted = some (.board ⟨1, "Beta", 1⟩) ∧
     r3.2.1 = ((twoBoardStore.deleteOneSnap (.board ⟨0, "Alpha", 0⟩)).deleteOneSnap
         (.board ⟨1, "Beta", 1⟩)).insertSnap (.board ⟨1, "Beta", 1⟩) ∧
     r3.2.2.lastDeleted = none ∧
     r4.1 = "Nothing to undo." ∧
     r4.2.1 = r3.2.1) :=
  C7_second_delete_wins _ _ _ _ _ _ _ _ twoBoardStore Ctx.empty
    "project" "Alpha" "project" "Beta" .board .board
    (.board ⟨0, "Alpha", 0⟩) (.board ⟨1, "Beta", 1⟩)
    rfl rfl rfl rfl rfl rfl rfl rfl
    rfl rfl rfl rfl rfl rfl rfl rfl
    rfl rfl rfl rfl
    rfl rfl rfl rfl

/-! ## C8 -/

/-- A session with a remembered active board and nothing to undo. -/
def activeOnlyCtx : Ctx := ⟨some 3, none, none⟩

/-- Claim C8 is false on the code: an undo request whose body carries an
activeProjectId reaches the undo case with `lastDeleted` absent and does
reply "Nothing to undo.", but the handler has already overwritten the
session's activeBoardId (3 becomes 7) at lines 108-110, so the request is
not free of session-state mutation. -/
theorem C8_counterexample :
    (handleChat ⟨some "undo", some 7⟩ (.ok undoAi) oneBoardStore activeOnlyCtx).1
      = "Nothing to undo." ∧
    (handleChat ⟨some "undo", some 7⟩ (.ok undoAi) oneBoardStore activeOnlyCtx).2.1
      = oneBoardStore ∧
    (handleChat ⟨some "undo", some 7⟩ (.ok undoAi) oneBoardStore activeOnlyCtx).2.2.activeBoardId
      = some 7 ∧
    activeOnlyCtx.activeBoardId = some 3 :=
  ⟨rfl, rfl, rfl, rfl⟩

/-- Claim C8 amended: for every session whose lastDeleted snapshot is
absent, an undo request replies "Nothing to undo." and performs no
mutation of the entity store; the session context is unchanged except for
the activeBoardId updates the handler performs before the action switch —
the frontend-controlled activeProjectId override and the auto switch on a
resolved project slot. -/
theorem C8_amended (req : ChatRequest) (ai : LLMResult) (s : Store) (ctx : Ctx)
    (hm : present req.message = true)
    (ha : ai.action = "undo")
    (hlast : ctx.lastDeleted = none) :
    handleChat req (.ok ai) s ctx
      = ("Nothing to undo.", s,
         autoSwitchProject ai.data s (applyActiveProjectOverride req ctx)) := by
  rw [handleChat_ok_pre req ai s ctx hm, ha]
  have hlast2 :
      (autoSwitchProject ai.data s (applyActiveProjectOverride req ctx)).lastDeleted
        = none := by
    rw [autoSwitchProject_lastDeleted, applyActiveProjectOverride_lastDeleted, hlast]
  calc dispatch (if ("undo" == "") = true then "none" else "undo") ai s
        (autoSwitchProject ai.data s (applyActiveProjectOverride req ctx))
      = handleUndo s (autoSwitchProject ai.data s (applyActiveProjectOverride req ctx)) :=
        rfl
    _ = _ := handleUndo_none _ _ hlast2

/-- Claim C8 amended, witnessed: with an activeProjectId override in the
request body the store is untouched and the undo is refused, while the
context keeps exactly the pre-switch activeBoardId update. -/
theorem C8_amended_witness :
    handleChat ⟨some "undo", some 7⟩ (.ok undoAi) oneBoardStore activeOnlyCtx
      = ("Nothing to undo.", oneBoardStore,
         autoSwitchProject undoAi.data oneBoardStore
           (applyActiveProjectOverride ⟨some "undo", some 7⟩ activeOnlyCtx)) :=
  C8_amended _ _ _ _ rfl rfl rfl

/-! ## C9 -/

/-- Claim C9: after a successful delete, the session's activeBoardId is
cleared exactly when the delete was of kind project and the deleted record
id equals the current activeBoardId; every other delete leaves it
unchanged. -/
theorem C9_activeBoard_frame (req : ChatRequest) (ai : LLMResult) (s : Store) (ctx : Ctx)
    (ty nm : String) (k : DelKind) (snap : SnapData)
    (hm : present req.message = true)
    (hapi : req.activeProjectId = none)
    (hproj : getPresent ai.data.project = none)
    (ha : ai.action = "delete")
    (hty : getPresent ai.data.type = some ty)
    (hnm : getPresent ai.data.name = some nm)
    (hk : delKindOf ty = some k)
    (hfind : s.findOneSnap k nm = some snap) :
    (handleChat req (.ok ai) s ctx).2.2.activeBoardId
      = if ty == "project" && ctx.activeBoardId == some snap.docId then none
        else ctx.activeBoardId := by
  rw [handleChat_delete_eq req ai s ctx hm hapi hproj ha,
      handleDelete_found ai.data ai.reply s ctx ty nm k snap hty hnm hk hfind]
  exact postDeleteCtx_activeBoardId ty snap ctx

/-- A store with one board and one member, for exercising both the
clearing and the frame part of C9. -/
def memberStore : Store := ⟨[⟨0, "Alpha", 0⟩], [], [], [⟨3, "Bob", "B", "bg-blue-500"⟩], 4⟩

/-- Claim C9, witnessed: deleting the active project Alpha clears
activeBoardId; deleting member Bob in the same kind of session leaves
activeBoardId untouched. -/
theorem C9_activeBoard_frame_witness :
    (handleChat ⟨some "delete project Alpha", none⟩ (.ok (delAi "project" "Alpha"))
        memberStore ⟨some 0, none, none⟩).2.2.activeBoardId
      = (if ("project" == "project") && ((some 0 : Option Nat) == some (SnapData.docId (.board ⟨0, "Alpha", 0⟩))) then none
         else some 0) ∧
    (handleChat ⟨some "delete member Bob", none⟩ (.ok (delAi "member" "Bob"))
        memberStore ⟨some 0, none, none⟩).2.2.activeBoardId
      = (if ("member" == "project") && ((some 0 : Option Nat) == some (SnapData.docId (.user ⟨3, "Bob", "B", "bg-blue-500"⟩))) then none
         else some 0) :=
  ⟨C9_activeBoard_frame _ _ _ _ "project" "Alpha" .board (.board ⟨0, "Alpha", 0⟩)
     rfl rfl rfl rfl rfl rfl rfl rfl,
   C9_activeBoard_frame _ _ _ _ "member" "Bob" .member (.user ⟨3, "Bob", "B", "bg-blue-500"⟩)
     rfl rfl rfl rfl rfl rfl rfl rfl⟩

/-! ## C10 -/

/-- Claim C10: a request with a missing or empty message field is answered
"Empty message" immediately: the result does not depend on the classifier
oracle in any way, and both the store and the session context are returned
unchanged — the guard runs before the context lookup, the active-project
override and the classifier call. -/
theorem C10_empty_message_guard (req : ChatRequest) (llm : LLMOutcome)
    (s : Store) (ctx : Ctx)
    (hm : present req.message = false) :
    handleChat req llm s ctx = ("Empty message", s, ctx) := by
  unfold handleChat
  rw [hm]
  rfl

/-- Claim C10, witnessed for an empty-string message (with a pending
activeProjectId override, which is nevertheless not applied) and for an
absent message, under failing classifiers. -/
theorem C10_empty_message_guard_witness :
    handleChat ⟨some "", some 7⟩ .failure oneBoardStore Ctx.empty
      = ("Empty message", oneBoardStore, Ctx.empty) ∧
    handleChat ⟨none, none⟩ .badJSON oneBoardStore snapCtx
      = ("Empty message", oneBoardStore, snapCtx) :=
  ⟨C10_empty_message_guard _ _ _ _ rfl, C10_empty_message_guard _ _ _ _ rfl⟩
